import Mathlib

/-!
# Shallow embedding of the `module-registry` crate

Data model from `src/types.rs`, constants from `src/constants.rs`,
the security validator from `src/security.rs`, and the registry core
from `src/registry.rs`.

Machine integers (`u64`) are modelled as `Nat`; where the source performs
`u64` subtraction the embedding makes the overflow behaviour explicit:
`wrappingSub` is subtraction modulo `2^64` (release semantics) and
`checkedSub` returns `none` on the underflow/panic branch (debug
semantics).  Factories are side-effecting Rust closures; the embedding is
polymorphic in a factory type `φ` and "invoking the factory" is modelled
by returning the stored factory handle.  The `HashMap<String, _>` backing
the registry is modelled as an association list with `HashMap::insert`
semantics (replace in place when the key is present, append otherwise);
iteration order is irrelevant to every claim below.
-/

namespace ModuleRegistrySpec

/-- The `u64` modulus. -/
def U64_MOD : Nat := 2 ^ 64

/-- The `u64` wrapping subtraction (release-mode semantics of `a - b`),
for `a b < U64_MOD`. -/
def wrappingSub (a b : Nat) : Nat := (U64_MOD + a - b) % U64_MOD

/-- The `u64` checked subtraction: `none` is the branch where debug-mode
`a - b` panics. -/
def checkedSub (a b : Nat) : Option Nat := if b ≤ a then some (a - b) else none

/-! ## Constants (`src/constants.rs`) -/

def DEFAULT_MEMORY_LIMIT_MB : Nat := 128
def DEFAULT_CPU_LIMIT_PERCENT : Nat := 50
def DEFAULT_TIMEOUT_SECONDS : Nat := 30

/-- The `365 * 24 * 60 * 60` seconds, one year. -/
def SIGNATURE_EXPIRY_SECONDS : Nat := 365 * 24 * 60 * 60

def DEFAULT_SIGNATURE_ALGORITHM : String := "SHA256-RSA"

def DEFAULT_DENIED_PATHS : List String := ["/etc", "/usr/bin", "/bin"]

def MAX_MODULE_NAME_LENGTH : Nat := 256
def MAX_MODULE_TYPE_LENGTH : Nat := 128
def MAX_PATH_LENGTH : Nat := 4096

/-! ## Data model (`src/types.rs`) -/

/-- The `ModuleSignature`: cryptographic signature metadata. -/
structure ModuleSignature where
  code_hash : String
  signature : String
  public_key : String
  timestamp : Nat
  algorithm : String
  deriving DecidableEq, Repr

/-- The `ModulePermissions`: capability flags and resource caps. -/
structure ModulePermissions where
  filesystem_access : Bool
  network_access : Bool
  process_spawn : Bool
  env_access : Bool
  system_access : Bool
  memory_limit_mb : Nat
  cpu_limit_percent : Nat
  timeout_seconds : Nat
  deriving DecidableEq, Repr

/-- The `ModulePermissions::default()`. -/
def ModulePermissions.default : ModulePermissions where
  filesystem_access := false
  network_access := false
  process_spawn := false
  env_access := false
  system_access := false
  memory_limit_mb := DEFAULT_MEMORY_LIMIT_MB
  cpu_limit_percent := DEFAULT_CPU_LIMIT_PERCENT
  timeout_seconds := DEFAULT_TIMEOUT_SECONDS

/-- The `CodeReviewStatus`: closed variant set. -/
inductive CodeReviewStatus where
  | Pending
  | InProgress
  | Approved (reviewer : String) (timestamp : Nat)
  | Rejected (reviewer : String) (reason : String) (timestamp : Nat)
  deriving DecidableEq, Repr

/-- The `SupplyChainInfo`: provenance metadata. -/
structure SupplyChainInfo where
  source_url : String
  commit_hash : String
  build_timestamp : Nat
  dependencies : List (String × String)
  build_environment : String
  verifier_signature : Option String
  deriving DecidableEq, Repr

/-- The `SandboxConfig`: declared isolation posture. -/
structure SandboxConfig where
  enabled : Bool
  filesystem_isolation : Bool
  network_isolation : Bool
  process_isolation : Bool
  read_only_fs : Bool
  allowed_paths : List String
  denied_paths : List String
  deriving DecidableEq, Repr

/-- The `SandboxConfig::default()`. -/
def SandboxConfig.default : SandboxConfig where
  enabled := true
  filesystem_isolation := true
  network_isolation := true
  process_isolation := true
  read_only_fs := true
  allowed_paths := []
  denied_paths := DEFAULT_DENIED_PATHS

/-- The `ModuleMetadata`: per-module registration record. -/
structure ModuleMetadata where
  name : String
  module_type : String
  instantiate_fn_name : String
  module_path : String
  struct_name : String
  signature : Option ModuleSignature
  permissions : ModulePermissions
  review_status : CodeReviewStatus
  supply_chain : Option SupplyChainInfo
  sandbox_config : SandboxConfig
  deriving DecidableEq, Repr

/-- The `ModuleMetadata::new`: defaults everywhere in the security fields. -/
def ModuleMetadata.new (name module_type instantiate_fn_name module_path
    struct_name : String) : ModuleMetadata where
  name := name
  module_type := module_type
  instantiate_fn_name := instantiate_fn_name
  module_path := module_path
  struct_name := struct_name
  signature := none
  permissions := ModulePermissions.default
  review_status := CodeReviewStatus.Pending
  supply_chain := none
  sandbox_config := SandboxConfig.default

/-- The `ModuleMetadata::secure`: caller-supplied security fields, but
`review_status` is hard-wired to `Pending`. -/
def ModuleMetadata.secure (name module_type instantiate_fn_name module_path
    struct_name : String) (signature : Option ModuleSignature)
    (permissions : ModulePermissions)
    (supply_chain : Option SupplyChainInfo) : ModuleMetadata where
  name := name
  module_type := module_type
  instantiate_fn_name := instantiate_fn_name
  module_path := module_path
  struct_name := struct_name
  signature := signature
  permissions := permissions
  review_status := CodeReviewStatus.Pending
  supply_chain := supply_chain
  sandbox_config := SandboxConfig.default

/-- The `matches!(status, CodeReviewStatus::Approved { .. })`. -/
def CodeReviewStatus.isApprovedVariant : CodeReviewStatus → Bool
  | .Approved _ _ => true
  | _ => false

/-- The `SecurityReport` (`src/types.rs`). -/
structure SecurityReport where
  name : String
  has_signature : Bool
  signature_verified : Bool
  is_approved : Bool
  has_supply_chain : Bool
  supply_chain_verified : Bool
  permissions : ModulePermissions
  sandbox_enabled : Bool
  deriving DecidableEq, Repr

/-! ## Security validator (`src/security.rs`) -/

/-- The `SecuritySeverity`. -/
inductive SecuritySeverity where
  | Low
  | Medium
  | High
  | Critical
  deriving DecidableEq, Repr

/-- The `SecurityRiskLevel`. -/
inductive SecurityRiskLevel where
  | None
  | Low
  | Medium
  | High
  | Critical
  deriving DecidableEq, Repr

/-- The `SecurityIssue`. -/
structure SecurityIssue where
  severity : SecuritySeverity
  message : String
  component : String
  deriving DecidableEq, Repr

/-- The `SecurityWarning`. -/
structure SecurityWarning where
  message : String
  component : String
  deriving DecidableEq, Repr

/-- The `SecurityCheckResult`. -/
structure SecurityCheckResult where
  is_secure : Bool
  risk_level : SecurityRiskLevel
  issues : List SecurityIssue
  warnings : List SecurityWarning
  check_timestamp : Nat
  deriving DecidableEq, Repr

namespace SecurityValidator

/-- The `SecurityValidator::verify_signature`, release semantics for the
`current_time - sig.timestamp` subtraction; `now` is the value of
`SystemTime::now()` in seconds.  The source returns `Result<bool>` but
never errors, so the embedding returns `Bool`. -/
def verify_signature (now : Nat) (metadata : ModuleMetadata) : Bool :=
  match metadata.signature with
  | some sig =>
    if wrappingSub now sig.timestamp > SIGNATURE_EXPIRY_SECONDS then false
    else if sig.algorithm ≠ DEFAULT_SIGNATURE_ALGORITHM then false
    else !sig.signature.isEmpty && !sig.public_key.isEmpty
  | none => false

/-- The `SecurityValidator::verify_signature` under checked (debug, panicking)
semantics for `current_time - sig.timestamp`: `none` is the panic branch. -/
def verify_signature_checked (now : Nat) (metadata : ModuleMetadata) :
    Option Bool :=
  match metadata.signature with
  | some sig =>
    match checkedSub now sig.timestamp with
    | none => none
    | some diff =>
      if diff > SIGNATURE_EXPIRY_SECONDS then some false
      else if sig.algorithm ≠ DEFAULT_SIGNATURE_ALGORITHM then some false
      else some (!sig.signature.isEmpty && !sig.public_key.isEmpty)
  | none => some false

/-- The `SecurityValidator::check_permissions`. -/
def check_permissions (metadata : ModuleMetadata)
    (required_permission : String) : Bool :=
  if required_permission = "filesystem_access" then
    metadata.permissions.filesystem_access
  else if required_permission = "network_access" then
    metadata.permissions.network_access
  else if required_permission = "process_spawn" then
    metadata.permissions.process_spawn
  else if required_permission = "env_access" then
    metadata.permissions.env_access
  else if required_permission = "system_access" then
    metadata.permissions.system_access
  else false

/-- The `SecurityValidator::is_approved`. -/
def is_approved (metadata : ModuleMetadata) : Bool :=
  metadata.review_status.isApprovedVariant

/-- The `SecurityValidator::verify_supply_chain`. -/
def verify_supply_chain (now : Nat) (metadata : ModuleMetadata) : Bool :=
  match metadata.supply_chain with
  | some chain =>
    if chain.source_url.isEmpty then false
    else if chain.commit_hash.isEmpty then false
    else if chain.build_timestamp > now then false
    else true
  | none => false

/-- The `SecurityValidator::calculate_risk_level`. -/
def calculate_risk_level (issues : List SecurityIssue) : SecurityRiskLevel :=
  if issues.any (fun i => i.severity = SecuritySeverity.Critical) then
    SecurityRiskLevel.Critical
  else if issues.any (fun i => i.severity = SecuritySeverity.High) then
    SecurityRiskLevel.High
  else if issues.any (fun i => i.severity = SecuritySeverity.Medium) then
    SecurityRiskLevel.Medium
  else if !issues.isEmpty then
    SecurityRiskLevel.Low
  else
    SecurityRiskLevel.None

/-- The signature-gate issue pushed by `comprehensive_check`. -/
def signatureIssue : SecurityIssue where
  severity := SecuritySeverity.High
  message := "Module signature verification failed"
  component := "signature"

/-- The approval-gate issue pushed by `comprehensive_check`. -/
def reviewIssue : SecurityIssue where
  severity := SecuritySeverity.Medium
  message := "Module not approved by code review"
  component := "review"

/-- The supply-chain-gate issue pushed by `comprehensive_check`. -/
def supplyChainIssue : SecurityIssue where
  severity := SecuritySeverity.Medium
  message := "Supply chain verification failed"
  component := "supply_chain"

/-- The cross-field issue pushed by `comprehensive_check` when
`system_access` is granted without sandboxing. -/
def sandboxIssue : SecurityIssue where
  severity := SecuritySeverity.High
  message := "System access granted without sandboxing"
  component := "permissions"

/-- The `SecurityValidator::comprehensive_check`.  The four delegated checks
are infallible, so the `Err => push Warning` arms of the source are dead
code and `warnings` is always empty. -/
def comprehensive_check (now : Nat) (metadata : ModuleMetadata) :
    SecurityCheckResult :=
  let issues :=
    (if verify_signature now metadata then [] else [signatureIssue]) ++
    (if is_approved metadata then [] else [reviewIssue]) ++
    (if verify_supply_chain now metadata then [] else [supplyChainIssue]) ++
    (if metadata.permissions.system_access &&
        !metadata.sandbox_config.enabled then [sandboxIssue] else [])
  { is_secure := issues.isEmpty
    risk_level := calculate_risk_level issues
    issues := issues
    warnings := []
    check_timestamp := now }

end SecurityValidator

/-! ## Registry core (`src/registry.rs`)

The registry is polymorphic in the factory type `φ`; the backing
`HashMap` is an association list with `insert` replacing in place. -/

/-- One registry entry: `(ModuleMetadata, ModuleFactory)` keyed by name. -/
abbrev Entries (φ : Type) := List (String × ModuleMetadata × φ)

/-- The `HashMap::get`. -/
def lookupEntry {φ : Type} : Entries φ → String → Option (ModuleMetadata × φ)
  | [], _ => none
  | (k, e) :: rest, name => if k = name then some e else lookupEntry rest name

/-- The `HashMap::insert`: replace in place when present, else append. -/
def insertEntry {φ : Type} : Entries φ → String → ModuleMetadata × φ →
    Entries φ
  | [], name, e => [(name, e)]
  | (k, e0) :: rest, name, e =>
    if k = name then (name, e) :: rest
    else (k, e0) :: insertEntry rest name e

/-- In-place replacement of the `review_status` field of the entry under
`name`, all other fields and entries untouched
(`metadata.review_status = status` after `get_mut`). -/
def setReviewStatus {φ : Type} (name : String) (status : CodeReviewStatus) :
    Entries φ → Entries φ
  | [] => []
  | (k, md, f) :: rest =>
    if k = name then (k, { md with review_status := status }, f) :: rest
    else (k, md, f) :: setReviewStatus name status rest

/-- The `ModuleRegistry` state: the guarded map. -/
structure RegistryState (φ : Type) where
  modules : Entries φ

/-- Registry error values (the `anyhow!` messages of the source,
as distinguishable constructors carrying the module name). -/
inductive RegError where
  | NotFound (name : String)
  | SignatureFailed (name : String)
  | NotApproved (name : String)
  | SupplyChainFailed (name : String)
  deriving DecidableEq, Repr

namespace ModuleRegistry

variable {φ : Type}

/-- The `ModuleRegistry::new()`. -/
def new (φ : Type) : RegistryState φ := ⟨[]⟩

/-- The expansion of `module_path!()` inside `register`/`register_secure`. -/
def registryModulePath : String := "module_registry::registry"

/-- The `ModuleRegistry::register_with_metadata`. -/
def register_with_metadata (st : RegistryState φ)
    (name module_type instantiate_fn module_path struct_name : String)
    (factory : φ) : RegistryState φ :=
  ⟨insertEntry st.modules name
    (ModuleMetadata.new name module_type instantiate_fn module_path
      struct_name, factory)⟩

/-- The `ModuleRegistry::register`. -/
def register (st : RegistryState φ) (name module_type : String)
    (factory : φ) : RegistryState φ :=
  register_with_metadata st name module_type "factory" registryModulePath
    "Module" factory

/-- The `ModuleRegistry::register_secure`. -/
def register_secure (st : RegistryState φ) (name module_type : String)
    (factory : φ) (signature : Option ModuleSignature)
    (permissions : ModulePermissions)
    (supply_chain : Option SupplyChainInfo) : RegistryState φ :=
  ⟨insertEntry st.modules name
    (ModuleMetadata.secure name module_type "factory" registryModulePath
      "Module" signature permissions supply_chain, factory)⟩

/-- The `ModuleRegistry::count`. -/
def count (st : RegistryState φ) : Nat := st.modules.length

/-- The `ModuleRegistry::has_module`. -/
def has_module (st : RegistryState φ) (name : String) : Bool :=
  (lookupEntry st.modules name).isSome

/-- The `ModuleRegistry::get_metadata` (cloned snapshot). -/
def get_metadata (st : RegistryState φ) (name : String) :
    Option ModuleMetadata :=
  (lookupEntry st.modules name).map Prod.fst

/-- The `ModuleRegistry::clear`. -/
def clear (_st : RegistryState φ) : RegistryState φ := ⟨[]⟩

/-- The `ModuleRegistry::verify_module_signature`: `NotFound` when the name
is absent, else the validator verdict. -/
def verify_module_signature (now : Nat) (st : RegistryState φ)
    (name : String) : Except RegError Bool :=
  match lookupEntry st.modules name with
  | none => .error (.NotFound name)
  | some (metadata, _) =>
    .ok (SecurityValidator.verify_signature now metadata)

/-- The `ModuleRegistry::is_module_approved`. -/
def is_module_approved (st : RegistryState φ) (name : String) :
    Except RegError Bool :=
  match lookupEntry st.modules name with
  | none => .error (.NotFound name)
  | some (metadata, _) => .ok (SecurityValidator.is_approved metadata)

/-- The `ModuleRegistry::verify_supply_chain`. -/
def verify_supply_chain (now : Nat) (st : RegistryState φ) (name : String) :
    Except RegError Bool :=
  match lookupEntry st.modules name with
  | none => .error (.NotFound name)
  | some (metadata, _) =>
    .ok (SecurityValidator.verify_supply_chain now metadata)

/-- The `ModuleRegistry::create_with_sandbox`: look up the entry and invoke
its factory (sandbox handling is purely observational logging in the
source); "invoking" the abstract factory is modelled by returning it. -/
def create_with_sandbox (st : RegistryState φ) (name : String) :
    Except RegError φ :=
  match lookupEntry st.modules name with
  | none => .error (.NotFound name)
  | some (_, factory) => .ok factory

/-- The `ModuleRegistry::create_secure`: the three gates, short-circuiting in
source order, then delegation to `create_with_sandbox`. -/
def create_secure (now : Nat) (st : RegistryState φ) (name : String) :
    Except RegError φ :=
  match verify_module_signature now st name with
  | .error e => .error e
  | .ok false => .error (.SignatureFailed name)
  | .ok true =>
    match is_module_approved st name with
    | .error e => .error e
    | .ok false => .error (.NotApproved name)
    | .ok true =>
      match verify_supply_chain now st name with
      | .error e => .error e
      | .ok false => .error (.SupplyChainFailed name)
      | .ok true => create_with_sandbox st name

/-- The `ModuleRegistry::update_review_status`: returns the call's result
together with the post-state (the source mutates in place behind `&self`). -/
def update_review_status (st : RegistryState φ) (name : String)
    (status : CodeReviewStatus) :
    Except RegError Unit × RegistryState φ :=
  match lookupEntry st.modules name with
  | none => (.error (.NotFound name), st)
  | some _ => (.ok (), ⟨setReviewStatus name status st.modules⟩)

/-- The `ModuleRegistry::get_security_report`: per-entry derived summary. -/
def get_security_report (st : RegistryState φ) :
    List (String × SecurityReport) :=
  st.modules.map (fun e =>
    (e.1,
      { name := e.1
        has_signature := e.2.1.signature.isSome
        signature_verified := e.2.1.signature.isSome
        is_approved := e.2.1.review_status.isApprovedVariant
        has_supply_chain := e.2.1.supply_chain.isSome
        supply_chain_verified := e.2.1.supply_chain.isSome
        permissions := e.2.1.permissions
        sandbox_enabled := e.2.1.sandbox_config.enabled }))

/-- The `ModuleRegistry::security_audit`. -/
def security_audit (now : Nat) (st : RegistryState φ) :
    List (String × SecurityCheckResult) :=
  st.modules.map (fun e =>
    (e.1, SecurityValidator.comprehensive_check now e.2.1))

end ModuleRegistry

/-! ## Helper lemmas -/

theorem wrappingSub_of_le {a b : Nat} (hba : b ≤ a) (ha : a < U64_MOD) :
    wrappingSub a b = a - b := by
  unfold wrappingSub
  have h1 : U64_MOD + a - b = U64_MOD + (a - b) := by omega
  rw [h1, Nat.add_mod_left]
  exact Nat.mod_eq_of_lt (by omega)

theorem lookup_insertEntry_self {φ : Type} (l : Entries φ) (name : String)
    (e : ModuleMetadata × φ) :
    lookupEntry (insertEntry l name e) name = some e := by
  induction l with
  | nil => simp [insertEntry, lookupEntry]
  | cons hd tl ih =>
    obtain ⟨k, e0⟩ := hd
    by_cases h : k = name
    · simp [insertEntry, h, lookupEntry]
    · simp [insertEntry, h, lookupEntry, ih]

theorem length_insertEntry_of_lookup {φ : Type} {l : Entries φ}
    {name : String} {e0 : ModuleMetadata × φ}
    (h : lookupEntry l name = some e0) (e : ModuleMetadata × φ) :
    (insertEntry l name e).length = l.length := by
  induction l with
  | nil => simp [lookupEntry] at h
  | cons hd tl ih =>
    obtain ⟨k, e1⟩ := hd
    by_cases hk : k = name
    · simp [insertEntry, hk]
    · simp only [lookupEntry, if_neg hk] at h
      simp [insertEntry, hk, ih h]

theorem keys_insertEntry_of_lookup {φ : Type} {l : Entries φ}
    {name : String} {e0 : ModuleMetadata × φ}
    (h : lookupEntry l name = some e0) (e : ModuleMetadata × φ) :
    (insertEntry l name e).map Prod.fst = l.map Prod.fst := by
  induction l with
  | nil => simp [lookupEntry] at h
  | cons hd tl ih =>
    obtain ⟨k, e1⟩ := hd
    by_cases hk : k = name
    · simp [insertEntry, hk]
    · simp only [lookupEntry, if_neg hk] at h
      simp [insertEntry, hk, ih h]

theorem lookup_setReviewStatus_self {φ : Type} {l : Entries φ}
    {name : String} {md : ModuleMetadata} {f : φ}
    (h : lookupEntry l name = some (md, f)) (status : CodeReviewStatus) :
    lookupEntry (setReviewStatus name status l) name =
      some ({ md with review_status := status }, f) := by
  induction l with
  | nil => simp [lookupEntry] at h
  | cons hd tl ih =>
    obtain ⟨k, e1⟩ := hd
    by_cases hk : k = name
    · simp only [lookupEntry, if_pos hk, Option.some.injEq] at h
      subst h
      simp [setReviewStatus, hk, lookupEntry]
    · simp only [lookupEntry, if_neg hk] at h
      simp [setReviewStatus, hk, lookupEntry, ih h]

theorem lookup_setReviewStatus_ne {φ : Type} (l : Entries φ)
    {name other : String} (h : other ≠ name) (status : CodeReviewStatus) :
    lookupEntry (setReviewStatus name status l) other =
      lookupEntry l other := by
  induction l with
  | nil => simp [setReviewStatus]
  | cons hd tl ih =>
    obtain ⟨k, md, f⟩ := hd
    have hno : name ≠ other := fun he => h he.symm
    by_cases hk : k = name
    · have hko : k ≠ other := by rw [hk]; exact hno
      simp [setReviewStatus, hk, lookupEntry, hko, hno]
    · by_cases hko : k = other
      · simp [setReviewStatus, hk, lookupEntry, hko, h]
      · simp [setReviewStatus, hk, lookupEntry, hko, ih]

theorem isApprovedVariant_iff (s : CodeReviewStatus) :
    s.isApprovedVariant = true ↔
      ∃ reviewer timestamp, s = CodeReviewStatus.Approved reviewer timestamp := by
  cases s <;> simp [CodeReviewStatus.isApprovedVariant]

/-! ## Claim theorems -/

/-- C1: for every registry state and name whose entry stores metadata
`md`, `create_secure` evaluates its three security gates short-circuiting
in the fixed order signature → approval → supply chain: it fails with the
signature-gate error exactly when `verify_signature` on `md` is false,
otherwise with the not-approved error exactly when `md` is not approved,
otherwise with the supply-chain error exactly when `verify_supply_chain`
is false, and only when all three gates pass does it delegate to
`create_with_sandbox`. -/
theorem create_secure_gate_order {φ : Type} (now : Nat)
    (st : RegistryState φ) (name : String) (md : ModuleMetadata) (f : φ)
    (h : lookupEntry st.modules name = some (md, f)) :
    ModuleRegistry.create_secure now st name =
      if SecurityValidator.verify_signature now md = false then
        Except.error (RegError.SignatureFailed name)
      else if SecurityValidator.is_approved md = false then
        Except.error (RegError.NotApproved name)
      else if SecurityValidator.verify_supply_chain now md = false then
        Except.error (RegError.SupplyChainFailed name)
      else ModuleRegistry.create_with_sandbox st name := by
  unfold ModuleRegistry.create_secure ModuleRegistry.verify_module_signature
    ModuleRegistry.is_module_approved ModuleRegistry.verify_supply_chain
  rw [h]
  cases h1 : SecurityValidator.verify_signature now md <;>
    cases h2 : SecurityValidator.is_approved md <;>
      cases h3 : SecurityValidator.verify_supply_chain now md <;>
        simp [h1, h2, h3]

/-- Metadata that is review-approved and carries valid supply-chain
provenance but no signature at all. -/
def mdApprovedNoSig : ModuleMetadata :=
  { ModuleMetadata.new "m" "processor" "factory" "path" "M" with
    review_status := CodeReviewStatus.Approved "alice" 0,
    supply_chain :=
      some ⟨"https://example.com/repo", "abc123", 0, [], "env", none⟩ }

/-- Witness for C1: an Approved module with valid supply chain but no
signature fails `create_secure` with the signature gate. -/
theorem create_secure_gate_order_witness :
    ModuleRegistry.create_secure 0
        (⟨[("m", mdApprovedNoSig, (0 : Nat))]⟩ : RegistryState Nat) "m" =
      Except.error (RegError.SignatureFailed "m") := by
  rw [create_secure_gate_order 0 ⟨[("m", mdApprovedNoSig, 0)]⟩ "m"
    mdApprovedNoSig 0 rfl]
  rfl

/-- C2: `verify_signature` is false with no signature present; otherwise
(for a signature whose timestamp is not in the future) false when
`now - timestamp > SIGNATURE_EXPIRY_SECONDS` or the algorithm differs
from "SHA256-RSA", otherwise true iff both the signature and public-key
strings are non-empty; in particular false at `now - 1 year - 1 s`,
false for algorithm "MD5", and true for a fresh, well-formed one. -/
theorem verify_signature_spec (now : Nat) (md : ModuleMetadata)
    (hnow : now < U64_MOD) :
    (md.signature = none → SecurityValidator.verify_signature now md = false) ∧
    (∀ sig, md.signature = some sig → sig.timestamp ≤ now →
      (SecurityValidator.verify_signature now md = true ↔
        now - sig.timestamp ≤ SIGNATURE_EXPIRY_SECONDS ∧
        sig.algorithm = DEFAULT_SIGNATURE_ALGORITHM ∧
        sig.signature ≠ "" ∧ sig.public_key ≠ "")) ∧
    (∀ sig, md.signature = some sig →
      now = sig.timestamp + SIGNATURE_EXPIRY_SECONDS + 1 →
      SecurityValidator.verify_signature now md = false) ∧
    (∀ sig, md.signature = some sig → sig.timestamp ≤ now →
      sig.algorithm = "MD5" →
      SecurityValidator.verify_signature now md = false) ∧
    (∀ sig, md.signature = some sig → sig.timestamp = now →
      sig.algorithm = DEFAULT_SIGNATURE_ALGORITHM →
      sig.signature ≠ "" → sig.public_key ≠ "" →
      SecurityValidator.verify_signature now md = true) := by
  refine ⟨fun h => by simp [SecurityValidator.verify_signature, h],
    ?_, ?_, ?_, ?_⟩
  · intro sig hs hts
    simp only [SecurityValidator.verify_signature, hs]
    rw [wrappingSub_of_le hts hnow]
    by_cases h1 : now - sig.timestamp > SIGNATURE_EXPIRY_SECONDS
    · simp only [if_pos h1, Bool.false_eq_true, false_iff]
      rintro ⟨hc, -⟩
      omega
    · by_cases h2 : sig.algorithm = DEFAULT_SIGNATURE_ALGORITHM
      · have hle : now - sig.timestamp ≤ SIGNATURE_EXPIRY_SECONDS := by omega
        simp [if_neg h1, h2, hle, String.isEmpty_iff, Bool.eq_false_iff]
      · simp [if_neg h1, h2]
  · intro sig hs hn
    have hts : sig.timestamp ≤ now := by omega
    simp only [SecurityValidator.verify_signature, hs]
    rw [wrappingSub_of_le hts hnow]
    have hd : now - sig.timestamp = SIGNATURE_EXPIRY_SECONDS + 1 := by omega
    simp [hd]
  · intro sig hs hts halg
    simp only [SecurityValidator.verify_signature, hs]
    rw [wrappingSub_of_le hts hnow]
    by_cases h1 : now - sig.timestamp > SIGNATURE_EXPIRY_SECONDS
    · simp [if_pos h1]
    · have : sig.algorithm ≠ DEFAULT_SIGNATURE_ALGORITHM := by
        rw [halg]; decide
      simp [if_neg h1, this]
  · intro sig hs hts halg hne1 hne2
    simp only [SecurityValidator.verify_signature, hs]
    rw [wrappingSub_of_le (le_of_eq hts) hnow]
    have hd : now - sig.timestamp = 0 := by omega
    simp only [hd, halg, SIGNATURE_EXPIRY_SECONDS]
    norm_num
    refine ⟨?_, ?_⟩ <;> rw [Bool.eq_false_iff]
    · exact fun hE => hne1 ((String.isEmpty_iff _).mp hE)
    · exact fun hE => hne2 ((String.isEmpty_iff _).mp hE)

/-- A fresh, well-formed signature timestamped at second 1000. -/
def sigFresh : ModuleSignature :=
  ⟨"deadbeef", "sigbytes", "pubkey", 1000, "SHA256-RSA"⟩

/-- Metadata carrying `sigFresh`. -/
def mdSigned : ModuleMetadata :=
  { ModuleMetadata.new "m" "processor" "factory" "path" "M" with
    signature := some sigFresh }

/-- Witness for C2: at `now = 1000` the fresh, well-formed signature of
`mdSigned` verifies. -/
theorem verify_signature_spec_witness :
    SecurityValidator.verify_signature 1000 mdSigned = true := by
  exact (verify_signature_spec 1000 mdSigned (by decide)).2.2.2.2 sigFresh
    rfl rfl rfl (by decide) (by decide)

/-- Metadata with no signature, Pending review and no supply chain, but
with `system_access` granted and sandboxing disabled. -/
def mdC3bad : ModuleMetadata :=
  { ModuleMetadata.new "m" "processor" "factory" "path" "M" with
    permissions := { ModulePermissions.default with system_access := true },
    sandbox_config := { SandboxConfig.default with enabled := false } }

/-- Counterexample to C3 as stated: metadata with no signature, Pending
review and no supply chain for which `comprehensive_check` reports 4
issues, not 3 (the cross-field sandbox rule fires as well). -/
theorem comprehensive_check_three_issues_cex :
    mdC3bad.signature = none ∧
    mdC3bad.review_status = CodeReviewStatus.Pending ∧
    mdC3bad.supply_chain = none ∧
    (SecurityValidator.comprehensive_check 0 mdC3bad).issues.length = 4 := by
  refine ⟨rfl, rfl, rfl, by decide⟩

/-- C3 (amended): for metadata with no signature, Pending review, no
supply chain, and for which the cross-field sandbox rule does not fire
(`system_access` false or sandbox enabled), `comprehensive_check` yields
exactly the 3 issues High (signature), Medium (review), Medium (supply
chain), with `is_secure = false` and `risk_level = High`. -/
theorem comprehensive_check_unsigned_pending_nochain (now : Nat)
    (md : ModuleMetadata) (h1 : md.signature = none)
    (h2 : md.review_status = CodeReviewStatus.Pending)
    (h3 : md.supply_chain = none)
    (h4 : md.permissions.system_access = false ∨
      md.sandbox_config.enabled = true) :
    (SecurityValidator.comprehensive_check now md).issues =
      [SecurityValidator.signatureIssue, SecurityValidator.reviewIssue,
        SecurityValidator.supplyChainIssue] ∧
    (SecurityValidator.comprehensive_check now md).issues.map
        SecurityIssue.severity =
      [SecuritySeverity.High, SecuritySeverity.Medium,
        SecuritySeverity.Medium] ∧
    (SecurityValidator.comprehensive_check now md).is_secure = false ∧
    (SecurityValidator.comprehensive_check now md).risk_level =
      SecurityRiskLevel.High := by
  have hsig : SecurityValidator.verify_signature now md = false := by
    simp [SecurityValidator.verify_signature, h1]
  have happ : SecurityValidator.is_approved md = false := by
    simp [SecurityValidator.is_approved, h2,
      CodeReviewStatus.isApprovedVariant]
  have hchain : SecurityValidator.verify_supply_chain now md = false := by
    simp [SecurityValidator.verify_supply_chain, h3]
  have hcross :
      (md.permissions.system_access && !md.sandbox_config.enabled) = false := by
    rcases h4 with h | h <;> simp [h]
  simp [SecurityValidator.comprehensive_check, hsig, happ, hchain, hcross,
    SecurityValidator.calculate_risk_level, SecurityValidator.signatureIssue,
    SecurityValidator.reviewIssue, SecurityValidator.supplyChainIssue]

/-- Witness for C3 (amended): freshly built default metadata has exactly
the three issues and High risk. -/
theorem comprehensive_check_unsigned_pending_nochain_witness :
    (SecurityValidator.comprehensive_check 0
        (ModuleMetadata.new "m" "t" "f" "p" "S")).risk_level =
      SecurityRiskLevel.High ∧
    (SecurityValidator.comprehensive_check 0
        (ModuleMetadata.new "m" "t" "f" "p" "S")).issues.length = 3 := by
  have h := comprehensive_check_unsigned_pending_nochain 0
    (ModuleMetadata.new "m" "t" "f" "p" "S") rfl rfl rfl (Or.inl rfl)
  exact ⟨h.2.2.2, by rw [h.1]; rfl⟩

/-- C4: `comprehensive_check` emits the High-severity "system access
granted without sandboxing" issue exactly when `system_access` is true
and sandboxing is disabled, regardless of all other metadata fields. -/
theorem comprehensive_check_sandbox_rule (now : Nat) (md : ModuleMetadata) :
    (md.permissions.system_access = true →
      md.sandbox_config.enabled = false →
      SecurityValidator.sandboxIssue ∈
        (SecurityValidator.comprehensive_check now md).issues) ∧
    (md.permissions.system_access = false ∨
        md.sandbox_config.enabled = true →
      SecurityValidator.sandboxIssue ∉
        (SecurityValidator.comprehensive_check now md).issues) := by
  constructor
  · intro h1 h2
    simp [SecurityValidator.comprehensive_check, h1, h2]
  · intro h4
    have hcross :
        (md.permissions.system_access &&
          !md.sandbox_config.enabled) = false := by
      rcases h4 with h | h <;> simp [h]
    cases hsig : SecurityValidator.verify_signature now md <;>
      cases happ : SecurityValidator.is_approved md <;>
        cases hch : SecurityValidator.verify_supply_chain now md <;>
          simp [SecurityValidator.comprehensive_check, hsig, happ, hch,
            hcross, SecurityValidator.sandboxIssue,
            SecurityValidator.signatureIssue, SecurityValidator.reviewIssue,
            SecurityValidator.supplyChainIssue]

/-- Witness for C4: `mdC3bad` (system access, no sandbox) receives the
sandbox issue; the same metadata with sandboxing switched on does not. -/
theorem comprehensive_check_sandbox_rule_witness :
    SecurityValidator.sandboxIssue ∈
      (SecurityValidator.comprehensive_check 0 mdC3bad).issues ∧
    SecurityValidator.sandboxIssue ∉
      (SecurityValidator.comprehensive_check 0
        { mdC3bad with sandbox_config := SandboxConfig.default }).issues := by
  exact ⟨(comprehensive_check_sandbox_rule 0 mdC3bad).1 rfl rfl,
    (comprehensive_check_sandbox_rule 0
      { mdC3bad with sandbox_config := SandboxConfig.default }).2
      (Or.inr rfl)⟩

/-- A well-formed signature dated one second after `now = 1760000000`. -/
def sigFuture : ModuleSignature :=
  ⟨"deadbeef", "sigbytes", "pubkey", 1760000001, "SHA256-RSA"⟩

/-- Metadata carrying the future-dated `sigFuture`. -/
def mdFuture : ModuleMetadata :=
  { ModuleMetadata.new "m" "processor" "factory" "path" "M" with
    signature := some sigFuture }

/-- C10: for a signature timestamped strictly after the current time the
`current_time - sig.timestamp` subtraction of `verify_signature`
underflows: under checked (panicking) semantics the error branch is
reached, and under wrapping semantics the wrapped difference exceeds
`SIGNATURE_EXPIRY_SECONDS`, so the function returns false. -/
theorem verify_signature_future_underflow :
    1760000000 < sigFuture.timestamp ∧
    SecurityValidator.verify_signature_checked 1760000000 mdFuture = none ∧
    SecurityValidator.verify_signature 1760000000 mdFuture = false ∧
    wrappingSub 1760000000 sigFuture.timestamp >
      SIGNATURE_EXPIRY_SECONDS := by
  refine ⟨by decide, by decide, by decide, by decide⟩

/-- C5: re-registering an existing name through any `register*` operation
leaves `count()` and the key set unchanged and replaces the stored
metadata and factory entirely with the newly supplied values. -/
theorem reregister_overwrites {φ : Type} (st : RegistryState φ)
    (name module_type instantiate_fn module_path struct_name : String)
    (factory : φ) (sgn : Option ModuleSignature)
    (permissions : ModulePermissions) (supply_chain : Option SupplyChainInfo)
    (e0 : ModuleMetadata × φ) (h : lookupEntry st.modules name = some e0) :
    (ModuleRegistry.count (ModuleRegistry.register_with_metadata st name
        module_type instantiate_fn module_path struct_name factory) =
        ModuleRegistry.count st ∧
      lookupEntry (ModuleRegistry.register_with_metadata st name module_type
          instantiate_fn module_path struct_name factory).modules name =
        some (ModuleMetadata.new name module_type instantiate_fn module_path
          struct_name, factory) ∧
      (ModuleRegistry.register_with_metadata st name module_type
          instantiate_fn module_path struct_name factory).modules.map
          Prod.fst =
        st.modules.map Prod.fst) ∧
    (ModuleRegistry.count (ModuleRegistry.register st name module_type
        factory) = ModuleRegistry.count st ∧
      lookupEntry (ModuleRegistry.register st name module_type
          factory).modules name =
        some (ModuleMetadata.new name module_type "factory"
          ModuleRegistry.registryModulePath "Module", factory) ∧
      (ModuleRegistry.register st name module_type factory).modules.map
          Prod.fst =
        st.modules.map Prod.fst) ∧
    (ModuleRegistry.count (ModuleRegistry.register_secure st name
        module_type factory sgn permissions supply_chain) =
        ModuleRegistry.count st ∧
      lookupEntry (ModuleRegistry.register_secure st name module_type
          factory sgn permissions supply_chain).modules name =
        some (ModuleMetadata.secure name module_type "factory"
          ModuleRegistry.registryModulePath "Module" sgn permissions
          supply_chain, factory) ∧
      (ModuleRegistry.register_secure st name module_type factory sgn
          permissions supply_chain).modules.map Prod.fst =
        st.modules.map Prod.fst) := by
  have key : ∀ e : ModuleMetadata × φ,
      (insertEntry st.modules name e).length = st.modules.length ∧
      lookupEntry (insertEntry st.modules name e) name = some e ∧
      (insertEntry st.modules name e).map Prod.fst =
        st.modules.map Prod.fst :=
    fun e => ⟨length_insertEntry_of_lookup h e,
      lookup_insertEntry_self _ _ _, keys_insertEntry_of_lookup h e⟩
  exact ⟨key _, key _, key _⟩

/-- A one-entry registry used to witness re-registration. -/
def stOne : RegistryState Nat :=
  ModuleRegistry.register (ModuleRegistry.new Nat) "m" "t" 1

/-- Witness for C5: re-registering "m" in the one-entry registry keeps
`count = 1` and replaces the stored metadata and factory. -/
theorem reregister_overwrites_witness :
    ModuleRegistry.count (ModuleRegistry.register stOne "m" "other" 2) = 1 ∧
    lookupEntry (ModuleRegistry.register stOne "m" "other" 2).modules "m" =
      some (ModuleMetadata.new "m" "other" "factory"
        ModuleRegistry.registryModulePath "Module", 2) := by
  have h := reregister_overwrites stOne "m" "other" "factory"
    ModuleRegistry.registryModulePath "Module" 2 none
    ModulePermissions.default none
    (ModuleMetadata.new "m" "t" "factory"
      ModuleRegistry.registryModulePath "Module", 1) rfl
  exact ⟨h.2.1.1, h.2.1.2.1⟩

/-- C6: `register_secure` always stores `review_status = Pending`,
whatever signature, permissions and supply-chain values the caller
supplies. -/
theorem register_secure_pending {φ : Type} (st : RegistryState φ)
    (name module_type : String) (factory : φ)
    (sgn : Option ModuleSignature) (permissions : ModulePermissions)
    (supply_chain : Option SupplyChainInfo) :
    lookupEntry (ModuleRegistry.register_secure st name module_type factory
        sgn permissions supply_chain).modules name =
      some (ModuleMetadata.secure name module_type "factory"
        ModuleRegistry.registryModulePath "Module" sgn permissions
        supply_chain, factory) ∧
    (ModuleMetadata.secure name module_type "factory"
        ModuleRegistry.registryModulePath "Module" sgn permissions
        supply_chain).review_status = CodeReviewStatus.Pending :=
  ⟨lookup_insertEntry_self _ _ _, rfl⟩

/-- C7: every entry of `get_security_report` has
`signature_verified = has_signature` (presence of a signature, not the
validator's freshness check), `supply_chain_verified = has_supply_chain`
(presence only), `is_approved` true exactly for the Approved variant, and
`sandbox_enabled` mirroring the stored sandbox flag. -/
theorem get_security_report_fields {φ : Type} (st : RegistryState φ)
    (name : String) (rep : SecurityReport)
    (h : (name, rep) ∈ ModuleRegistry.get_security_report st) :
    ∃ md : ModuleMetadata, ∃ f : φ, (name, md, f) ∈ st.modules ∧
      rep.has_signature = md.signature.isSome ∧
      rep.signature_verified = rep.has_signature ∧
      rep.has_supply_chain = md.supply_chain.isSome ∧
      rep.supply_chain_verified = rep.has_supply_chain ∧
      (rep.is_approved = true ↔
        ∃ reviewer timestamp,
          md.review_status = CodeReviewStatus.Approved reviewer timestamp) ∧
      rep.sandbox_enabled = md.sandbox_config.enabled := by
  simp only [ModuleRegistry.get_security_report, List.mem_map] at h
  obtain ⟨⟨k, md, f⟩, hmem, heq⟩ := h
  simp only [Prod.mk.injEq] at heq
  obtain ⟨hk, hrep⟩ := heq
  subst hk
  subst hrep
  exact ⟨md, f, hmem, rfl, rfl, rfl, rfl, isApprovedVariant_iff _, rfl⟩

/-- The security report `get_security_report` derives for
`mdApprovedNoSig`. -/
def repApprovedNoSig : SecurityReport where
  name := "m"
  has_signature := false
  signature_verified := false
  is_approved := true
  has_supply_chain := true
  supply_chain_verified := true
  permissions := ModulePermissions.default
  sandbox_enabled := true

/-- Witness for C7: the report entry of a one-entry registry satisfies
the per-entry field laws. -/
theorem get_security_report_fields_witness :
    ∃ md : ModuleMetadata, ∃ f : Nat,
      ("m", md, f) ∈
        (⟨[("m", mdApprovedNoSig, (0 : Nat))]⟩ : RegistryState Nat).modules ∧
      repApprovedNoSig.has_signature = md.signature.isSome ∧
      repApprovedNoSig.signature_verified = repApprovedNoSig.has_signature ∧
      repApprovedNoSig.has_supply_chain = md.supply_chain.isSome ∧
      repApprovedNoSig.supply_chain_verified =
        repApprovedNoSig.has_supply_chain ∧
      (repApprovedNoSig.is_approved = true ↔
        ∃ reviewer timestamp,
          md.review_status = CodeReviewStatus.Approved reviewer timestamp) ∧
      repApprovedNoSig.sandbox_enabled = md.sandbox_config.enabled := by
  exact get_security_report_fields
    (⟨[("m", mdApprovedNoSig, (0 : Nat))]⟩ : RegistryState Nat) "m"
    repApprovedNoSig (by decide)

/-- C8: `update_review_status` on a present name succeeds, replaces only
the `review_status` field of that entry (name, type, descriptor fields,
signature, permissions, supply chain, sandbox config and factory all kept
by the record update) and leaves every other entry unchanged; on an
absent name it fails with `NotFound` and leaves the state unchanged. -/
theorem update_review_status_frame {φ : Type} (st : RegistryState φ)
    (name : String) (status : CodeReviewStatus) :
    (∀ md f, lookupEntry st.modules name = some (md, f) →
      (ModuleRegistry.update_review_status st name status).1 =
        Except.ok () ∧
      lookupEntry
          (ModuleRegistry.update_review_status st name status).2.modules
          name =
        some ({ md with review_status := status }, f) ∧
      ∀ other, other ≠ name →
        lookupEntry
            (ModuleRegistry.update_review_status st name status).2.modules
            other =
          lookupEntry st.modules other) ∧
    (lookupEntry st.modules name = none →
      ModuleRegistry.update_review_status st name status =
        (Except.error (RegError.NotFound name), st)) := by
  constructor
  · intro md f h
    have hres : ModuleRegistry.update_review_status st name status =
        (Except.ok (), ⟨setReviewStatus name status st.modules⟩) := by
      simp [ModuleRegistry.update_review_status, h]
    rw [hres]
    exact ⟨rfl, lookup_setReviewStatus_self h status,
      fun other ho => lookup_setReviewStatus_ne _ ho status⟩
  · intro h
    simp [ModuleRegistry.update_review_status, h]

/-- A two-entry registry used to witness `update_review_status`. -/
def stTwo : RegistryState Nat :=
  ⟨[("m", ModuleMetadata.new "m" "t" "f" "p" "S", 7),
    ("k", ModuleMetadata.new "k" "u" "f" "p" "S", 8)]⟩

/-- Witness for C8: updating "m" succeeds and leaves "k" unchanged;
updating an absent name fails with `NotFound` and returns the state
unchanged. -/
theorem update_review_status_frame_witness :
    (ModuleRegistry.update_review_status stTwo "m"
        CodeReviewStatus.InProgress).1 = Except.ok () ∧
    lookupEntry (ModuleRegistry.update_review_status stTwo "m"
        CodeReviewStatus.InProgress).2.modules "k" =
      lookupEntry stTwo.modules "k" ∧
    ModuleRegistry.update_review_status stTwo "absent"
        CodeReviewStatus.InProgress =
      (Except.error (RegError.NotFound "absent"), stTwo) := by
  have h := update_review_status_frame stTwo "m" CodeReviewStatus.InProgress
  have h1 := h.1 (ModuleMetadata.new "m" "t" "f" "p" "S") 7 rfl
  have h2 := update_review_status_frame stTwo "absent"
    CodeReviewStatus.InProgress
  exact ⟨h1.1, h1.2.2 "k" (by decide), h2.2 (by decide)⟩

/-- A 257-character module name. -/
def longName : String := String.mk (List.replicate 257 'a')

/-- A 129-character module type. -/
def longType : String := String.mk (List.replicate 129 'b')

/-- The registry obtained by registering `longName`/`longType` into an
empty registry. -/
def stLong : RegistryState Nat :=
  ModuleRegistry.register_with_metadata (ModuleRegistry.new Nat) longName
    longType "f" "p" "S" 0

set_option maxRecDepth 4096 in
/-- Counterexample to C9 as stated: a single `register_with_metadata`
call on an empty registry stores a 257-character name and a
129-character module type, so registration does not enforce
`MAX_MODULE_NAME_LENGTH`/`MAX_MODULE_TYPE_LENGTH`. -/
theorem register_length_limits_cex :
    (ModuleRegistry.get_metadata stLong longName).map
        (fun md => (md.name.length, md.module_type.length)) =
      some (257, 129) ∧
    ¬(257 ≤ MAX_MODULE_NAME_LENGTH) ∧
    ¬(129 ≤ MAX_MODULE_TYPE_LENGTH) := by
  have h1 : ModuleRegistry.get_metadata stLong longName =
      some (ModuleMetadata.new longName longType "f" "p" "S") := by
    simp [ModuleRegistry.get_metadata, stLong,
      ModuleRegistry.register_with_metadata, ModuleRegistry.new,
      lookup_insertEntry_self]
  refine ⟨?_, by decide, by decide⟩
  rw [h1]
  have hn : longName.length = 257 := by
    show (List.replicate 257 'a').length = 257
    simp
  have ht : longType.length = 129 := by
    show (List.replicate 129 'b').length = 129
    simp
  simp [ModuleMetadata.new, hn, ht]

/-- C9 (amended): the length limits are declared as constants but not
enforced: every `register*` operation stores exactly the supplied name
and module type, whatever their lengths. -/
theorem register_stores_unvalidated {φ : Type} (st : RegistryState φ)
    (name module_type instantiate_fn module_path struct_name : String)
    (factory : φ) (sgn : Option ModuleSignature)
    (permissions : ModulePermissions)
    (supply_chain : Option SupplyChainInfo) :
    (ModuleRegistry.get_metadata (ModuleRegistry.register_with_metadata st
        name module_type instantiate_fn module_path struct_name factory)
        name).map (fun md => (md.name, md.module_type)) =
      some (name, module_type) ∧
    (ModuleRegistry.get_metadata (ModuleRegistry.register st name
        module_type factory) name).map
        (fun md => (md.name, md.module_type)) =
      some (name, module_type) ∧
    (ModuleRegistry.get_metadata (ModuleRegistry.register_secure st name
        module_type factory sgn permissions supply_chain) name).map
        (fun md => (md.name, md.module_type)) =
      some (name, module_type) := by
  refine ⟨?_, ?_, ?_⟩ <;>
    simp [ModuleRegistry.get_metadata, ModuleRegistry.register_with_metadata,
      ModuleRegistry.register, ModuleRegistry.register_secure,
      lookup_insertEntry_self, ModuleMetadata.new, ModuleMetadata.secure]

end ModuleRegistrySpec
